import Mathlib

/-!
# Service bootstrap and dialog authorisation of the node (cmd/di_desktop.go)

A shallow embedding of the wiring code in `cmd/di_desktop.go`:

* Go errors are values of `GoError`; a nil error is `none`.
* A Go call that can panic yields an `Outcome`; every function of the file that
  calls collaborators runs in `Run`, which threads the list of construction
  steps performed so far (collaborator calls, pool constructors, closures built).
* Collaborators that live in other packages are represented by the outcome of
  the calls the code makes on them (`Wiring`, `World`, `Packages`).
-/

namespace DiDesktop

/-! ## Errors and outcomes -/

/-- Go error values built with `github.com/pkg/errors`. -/
inductive GoError where
  | new (msg : String)
  | wrap (cause : GoError) (msg : String)
  deriving DecidableEq, Repr

/-- The text of an error, `Error()`: a wrapped error prints its message, a colon and its cause. -/
def GoError.Error : GoError → String
  | .new msg => msg
  | .wrap cause msg => msg ++ ": " ++ cause.Error

/-- The call `errors.New(msg)`. -/
def errors_New (msg : String) : GoError := .new msg

/-- The call `errors.Wrap(err, msg)`: nil stays nil, any other error is annotated. -/
def errors_Wrap (err : Option GoError) (msg : String) : Option GoError :=
  match err with
  | none => none
  | some e => some (.wrap e msg)

/-- Payload of a Go runtime panic raised by the code of this file. -/
inductive GoPanic where
  /-- A failed single-value type assertion `x.(T)`; `dynamic` is `none` for a nil interface. -/
  | interfaceConversion (dynamic : Option String) (wanted : String)
  /-- Dereference of a nil pointer. -/
  | nilDereference
  deriving DecidableEq, Repr

/-- How a Go call ends: it returns a value or it panics. -/
inductive Outcome (α : Type) where
  | returned (a : α)
  | panicked (p : GoPanic)

/-! ## Identities and the dialog waiter -/

/-- The type `identity.Identity`: an address-bearing principal. -/
structure Identity where
  Address : String
  deriving DecidableEq, Repr

/-- An opaque collaborator object, known only by a label. -/
structure Handle where
  label : String
  deriving DecidableEq, Repr

/-- The closure `allowedIdentityValidator` of `newDialogWaiter`, over the captured `allowedIDs`. -/
def allowedIdentityValidator (allowedIDs : List Identity) (peerID : Identity) : Option GoError :=
  if allowedIDs.length = 0 then
    none
  else
    loop allowedIDs
where
  /-- The `for _, id := range allowedIDs` loop followed by the final `return`. -/
  loop : List Identity → Option GoError
    | [] => some (errors_New "identity is not allowed")
    | id :: rest => if peerID.Address = id.Address then none else loop rest

/-- The channel key `fmt.Sprintf("%v.%v", providerID.Address, serviceType)`. -/
def dialogChannelKey (providerID : Identity) (serviceType : String) : String :=
  providerID.Address ++ "." ++ serviceType

/-- The arguments handed to `nats_dialog.NewDialogWaiter`. -/
structure DialogWaiter where
  connection : Handle
  topic : String
  signer : Handle
  validator : Identity → Option GoError

/-- The fields of `di` that the closure `newDialogWaiter` reads when it is called. -/
structure DialogWiring where
  BrokerConnection : Handle
  SignerFactory : Identity → Handle

/-- The closure `newDialogWaiter` of `bootstrapServiceComponents`. -/
def newDialogWaiter (di : DialogWiring) (providerID : Identity) (serviceType : String)
    (allowedIDs : List Identity) : DialogWaiter × Option GoError :=
  ({ connection := di.BrokerConnection
     topic := dialogChannelKey providerID serviceType
     signer := di.SignerFactory providerID
     validator := allowedIdentityValidator allowedIDs }, none)

/-! ## Construction steps and the run monad -/

/-- The type `port.Range`. -/
structure Range where
  Start : Int
  End : Int
  deriving DecidableEq, Repr

/-- The port suppliers of package `port`, each named by the constructor call that builds it. -/
inductive PortPool where
  /-- The call `port.NewFixedRangePool(r)`. -/
  | NewFixedRangePool (r : Range)
  /-- The call `port.NewPoolFixed(port.Port(p))`, the conversion keeping the integer. -/
  | NewPoolFixed (p : Int)
  /-- The call `port.NewPool()`. -/
  | NewPool
  deriving DecidableEq, Repr

/-- One observable step of a function body: a call on a collaborator, a constructor call of
another package, a closure being built, or a log line. -/
inductive Step where
  | OpenvpnCheck
  | DetectLocation
  | GetOutboundIPAsString
  | mapPortClosure
  | logInfo (format : String) (ports : Option Range)
  | poolBuilt (pool : PortPool)
  | wireguardNewManager
  | wireguardGetProposal
  | openvpnNewServiceProposalWithLocation
  | openvpnNewManager
  | noopNewManager
  | noopGetProposal
  | natNewService
  | natEnable
  | logWarn (err : GoError) (msg : String)
  | serviceNewRegistry
  | sessionNewEventBasedStorage
  | storageSubscribe
  | serviceNewManager
  | eventBusSubscribeStatusTopic
  | logError (msg : String)
  | registryRegister (serviceType : String)
  deriving DecidableEq, Repr

/-- A computation that appends the steps it performs to those done before and then returns
or panics. -/
def Run (α : Type) : Type := List Step → Outcome α × List Step

/-- Return a value, performing no step. -/
def Run.pure {α : Type} (a : α) : Run α := fun t => (.returned a, t)

/-- Sequencing: a panic of the first part ends the whole computation. -/
def Run.bind {α β : Type} (m : Run α) (f : α → Run β) : Run β := fun t =>
  match m t with
  | (.returned a, t1) => f a t1
  | (.panicked p, t1) => (.panicked p, t1)

instance : Monad Run where
  pure := Run.pure
  bind := Run.bind

/-- Perform one step. -/
def step (s : Step) : Run Unit := fun t => (.returned (), t ++ [s])

/-- Raise a Go panic. -/
def goPanic {α : Type} (p : GoPanic) : Run α := fun t => (.panicked p, t)

/-- Run a computation from the empty list of steps. -/
def Run.exec {α : Type} (m : Run α) : Outcome α × List Step := m []

/-! ## Data handled by the service factories -/

/-- The type `location.Location`, with the fields the factories read. -/
structure Location where
  IP : String
  Continent : String
  Country : String
  City : String
  ASN : Int
  ISP : String
  NodeType : String
  deriving DecidableEq, Repr

/-- The type `market.Location`, as the openvpn factory fills it. -/
structure MarketLocation where
  Continent : String
  Country : String
  City : String
  ASN : Int
  ISP : String
  NodeType : String
  deriving DecidableEq, Repr

/-- The type `location.ServiceLocationInfo`, as the openvpn factory fills it. -/
structure ServiceLocationInfo where
  OutIP : String
  PubIP : String
  Country : String
  deriving DecidableEq, Repr

/-- Modelled from the spec: the type `market.ServiceProposal` is declared outside this file;
the spec describes it as a market-facing descriptor holding the location (continent, country,
city, ASN, ISP, node type), the protocol and protocol-specific metadata; `ProviderID` is the
field read by `newDialogHandler`. -/
structure ServiceProposal where
  ServiceType : String
  Location : MarketLocation
  Protocol : String
  ProviderID : String
  deriving DecidableEq, Repr

/-- The zero value `market.ServiceProposal{}`. -/
def ServiceProposal.zero : ServiceProposal :=
  { ServiceType := "", Location := ⟨"", "", "", 0, "", ""⟩, Protocol := "", ProviderID := "" }

/-- The type `wireguard_service.Options`; `Ports` is a pointer to a `port.Range`. -/
structure WireguardOptions where
  Ports : Option Range
  deriving DecidableEq, Repr

/-- The type `openvpn_service.Options`, with the fields the factory reads. -/
structure OpenvpnOptions where
  Protocol : String
  Port : Int
  deriving DecidableEq, Repr

/-- A value of the interface type `service.Options`, by its dynamic type. -/
inductive ServiceOptions where
  | wireguard (o : WireguardOptions)
  | openvpn (o : OpenvpnOptions)
  /-- A value of any other dynamic type, named by `typeName`. -/
  | other (typeName : String)
  /-- The nil interface value. -/
  | nil
  deriving DecidableEq, Repr

/-- The dynamic type name of an options value, `none` for the nil interface. -/
def ServiceOptions.dynamicType : ServiceOptions → Option String
  | .wireguard _ => some "wireguard_service.Options"
  | .openvpn _ => some "openvpn_service.Options"
  | .other n => some n
  | .nil => none

/-- The type `node.Options`, with what the factories use of it: the result of
`nodeOptions.Openvpn.Check()`. -/
structure NodeOptions where
  OpenvpnCheck : Option GoError
  deriving DecidableEq, Repr

/-- The deferred action returned by `mapping.GetPortMappingFunc`, named by the arguments of the
call. -/
structure PortMappingFunc where
  pubIP : String
  outIP : String
  protocol : String
  port : Int
  name : String
  publisher : Handle
  deriving DecidableEq, Repr

/-- The call `mapping.GetPortMappingFunc(pubIP, outIP, protocol, port, name, publisher)`. -/
def mapping_GetPortMappingFunc (pubIP outIP protocol : String) (port : Int) (name : String)
    (publisher : Handle) : PortMappingFunc :=
  { pubIP := pubIP, outIP := outIP, protocol := protocol, port := port, name := name,
    publisher := publisher }

/-- A `service.Service`, named by the manager constructor that builds it and its arguments. -/
inductive Service where
  /-- The call `wireguard_service.NewManager(ipResolver, natService, mapPort, options, portPool)`. -/
  | wireguardManager (ipResolver natService : Handle) (mapPort : Int → PortMappingFunc)
      (options : WireguardOptions) (portPool : PortPool)
  /-- The call `openvpn_service.NewManager(...)` with its ten arguments. -/
  | openvpnManager (nodeOptions : NodeOptions) (transportOptions : OpenvpnOptions)
      (locationInfo : ServiceLocationInfo) (sessionStorage natService natPinger : Handle)
      (mapPort : Int → PortMappingFunc) (natTracker : Handle) (portPool : PortPool)
      (eventBus : Handle)
  /-- The call `service_noop.NewManager()`. -/
  | noopManager

/-- What a factory returns: `(service.Service, market.ServiceProposal, error)`. -/
abbrev FactoryResult := Option Service × ServiceProposal × Option GoError

/-- The fields of `di` a registered factory reads when it is called, the resolvers being given
by the result of the one call the factory makes on them. -/
structure Wiring where
  DetectLocation : Location × Option GoError
  GetOutboundIPAsString : String × Option GoError
  IPResolver : Handle
  NATService : Handle
  NATPinger : Handle
  NATTracker : Handle
  EventBus : Handle
  ServiceSessionStorage : Handle

/-- Functions of other packages that the factories call and whose code is not in this file. -/
structure Packages where
  /-- The method `(*port.Range).IsSpecified`, on a possibly nil pointer. -/
  IsSpecified : Option Range → Bool
  /-- The function `wireguard_service.GetProposal`. -/
  wireguardGetProposal : Location → ServiceProposal
  /-- The function `openvpn_discovery.NewServiceProposalWithLocation`. -/
  NewServiceProposalWithLocation : MarketLocation → String → ServiceProposal
  /-- The function `service_noop.GetProposal`. -/
  noopGetProposal : Location → ServiceProposal

/-- Modelled from the spec: `service_noop.GetProposal` is not in this file; the spec says of the
noop factory that the proposal's location fields exactly mirror the resolver's returned
location, and that a proposal carries the protocol. -/
def service_noop_GetProposal (location : Location) : ServiceProposal :=
  { ServiceType := "noop"
    Location :=
      { Continent := location.Continent, Country := location.Country, City := location.City,
        ASN := location.ASN, ISP := location.ISP, NodeType := location.NodeType }
    Protocol := ""
    ProviderID := "" }

/-! ## The service factories -/

/-- The factory closure registered by `bootstrapServiceWireguard`. -/
def wireguardFactory (pkg : Packages) (di : Wiring) (serviceOptions : ServiceOptions) :
    Run FactoryResult := do
  step .DetectLocation
  let (location, err) := di.DetectLocation
  if let some e := err then
    return (none, ServiceProposal.zero, some e)
  step .GetOutboundIPAsString
  let (outIP, err) := di.GetOutboundIPAsString
  if let some e := err then
    return (none, ServiceProposal.zero, some e)
  let wgOptions ← (match serviceOptions with
    | .wireguard o => Run.pure o
    | v => goPanic (.interfaceConversion v.dynamicType "wireguard_service.Options"))
  step .mapPortClosure
  let mapPort := fun (port : Int) =>
    mapping_GetPortMappingFunc location.IP outIP "UDP" port
      "Myst node wireguard(tm) port mapping" di.EventBus
  let portPool ←
    if pkg.IsSpecified wgOptions.Ports then do
      step (.logInfo "Fixed service port range (%s) configured, using custom port pool"
        wgOptions.Ports)
      let r ← (match wgOptions.Ports with
        | some r => Run.pure r
        | none => goPanic .nilDereference)
      step (.poolBuilt (.NewFixedRangePool r))
      Run.pure (PortPool.NewFixedRangePool r)
    else do
      step (.poolBuilt .NewPool)
      Run.pure PortPool.NewPool
  step .wireguardNewManager
  step .wireguardGetProposal
  return (some (.wireguardManager di.IPResolver di.NATService mapPort wgOptions portPool),
    pkg.wireguardGetProposal location, none)

/-- The closure `createService` registered by `bootstrapServiceOpenvpn`. -/
def openvpnFactory (pkg : Packages) (nodeOptions : NodeOptions) (di : Wiring)
    (serviceOptions : ServiceOptions) : Run FactoryResult := do
  step .OpenvpnCheck
  if let some e := nodeOptions.OpenvpnCheck then
    return (none, ServiceProposal.zero, some e)
  step .DetectLocation
  let (loc, err) := di.DetectLocation
  if let some e := err then
    return (none, ServiceProposal.zero, some e)
  step .GetOutboundIPAsString
  let (outIP, err) := di.GetOutboundIPAsString
  if let some e := err then
    return (none, ServiceProposal.zero, some e)
  let currentLocation : MarketLocation :=
    { Continent := loc.Continent, Country := loc.Country, City := loc.City,
      ASN := loc.ASN, ISP := loc.ISP, NodeType := loc.NodeType }
  let transportOptions ← (match serviceOptions with
    | .openvpn o => Run.pure o
    | v => goPanic (.interfaceConversion v.dynamicType "openvpn_service.Options"))
  step .mapPortClosure
  let mapPort := fun (port : Int) =>
    mapping_GetPortMappingFunc loc.IP outIP transportOptions.Protocol port
      "Myst node OpenVPN port mapping" di.EventBus
  let locationInfo : ServiceLocationInfo :=
    { OutIP := outIP, PubIP := loc.IP, Country := loc.Country }
  step .openvpnNewServiceProposalWithLocation
  let proposal := pkg.NewServiceProposalWithLocation currentLocation transportOptions.Protocol
  let portPool ←
    if transportOptions.Port ≠ 0 then do
      step (.poolBuilt (.NewPoolFixed transportOptions.Port))
      Run.pure (PortPool.NewPoolFixed transportOptions.Port)
    else do
      step (.poolBuilt .NewPool)
      Run.pure PortPool.NewPool
  step .openvpnNewManager
  let manager := Service.openvpnManager nodeOptions transportOptions locationInfo
    di.ServiceSessionStorage di.NATService di.NATPinger mapPort di.NATTracker portPool di.EventBus
  return (some manager, proposal, none)

/-- The factory closure registered by `bootstrapServiceNoop`. -/
def noopFactory (pkg : Packages) (di : Wiring) (_serviceOptions : ServiceOptions) :
    Run FactoryResult := do
  step .DetectLocation
  let (location, err) := di.DetectLocation
  if let some e := err then
    return (none, ServiceProposal.zero, some e)
  step .noopNewManager
  step .noopGetProposal
  return (some .noopManager, pkg.noopGetProposal location, none)

/-! ## The registry and the bootstrap sequence -/

/-- The type `service.RegistryFactory`: a registered factory, applied to the state of `di` at the
time of the call. -/
abbrev ServiceFactory := Wiring → ServiceOptions → Run FactoryResult

/-- Modelled from the spec: `service.Registry` is not in this file; the spec describes it as a
mapping from protocol identifier to factory with unique keys, where `Register` stores the
factory and overwrites any prior entry for the same identifier and `Lookup` is a pure lookup. -/
structure Registry where
  factories : List (String × ServiceFactory)

/-- Modelled from the spec: the call `service.NewRegistry()`, an empty mapping. -/
def service_NewRegistry : Registry := ⟨[]⟩

/-- Modelled from the spec: `Register(protocolID, factory)`, last write wins. -/
def Registry.Register (r : Registry) (serviceType : String) (creator : ServiceFactory) : Registry :=
  ⟨(serviceType, creator) :: r.factories.filter (fun p => p.1 ≠ serviceType)⟩

/-- Modelled from the spec: `Lookup(protocolID)`, the factory stored for the identifier if any. -/
def Registry.Lookup (r : Registry) (serviceType : String) : Option ServiceFactory :=
  (r.factories.find? (fun p => p.1 = serviceType)).map (fun p => p.2)

/-- Modelled from the spec: the constant `service_openvpn.ServiceType`, protocol identifier
"openvpn". -/
def service_openvpn_ServiceType : String := "openvpn"

/-- Modelled from the spec: the constant `service_noop.ServiceType`, protocol identifier "noop". -/
def service_noop_ServiceType : String := "noop"

/-- Modelled from the spec: the constant `wireguard.ServiceType`, protocol identifier
"wireguard". -/
def wireguard_ServiceType : String := "wireguard"

/-- The arguments handed to `service.NewManager`, the registry argument being the pointer
`di.ServiceRegistry` itself; the closure `newDialogHandler` only forwards its captured
collaborators to constructors of other files and is not represented. -/
structure ServicesManager where
  newDialogWaiter : DialogWiring → Identity → String → List Identity →
    DialogWaiter × Option GoError
  DiscoveryFactory : Handle
  EventBus : Handle
  HTTPClient : Handle

/-- The container `Dependencies`, with the fields this file reads or writes; `ServiceRegistry`
is a pointer and is nil until `bootstrapServiceComponents` sets it. -/
structure Dependencies where
  wiring : Wiring
  dialog : DialogWiring
  DiscoveryFactory : Handle
  HTTPClient : Handle
  ServiceRegistry : Option Registry
  ServicesManager : Option ServicesManager

/-- Results of the calls that `bootstrapServiceComponents` makes on objects it creates or on the
event bus. -/
structure World where
  /-- The object returned by `nat.NewService()`. -/
  natService : Handle
  /-- The result of `di.NATService.Enable()`. -/
  natServiceEnable : Option GoError
  /-- The object returned by `session.NewEventBasedStorage(...)`. -/
  sessionStorage : Handle
  /-- The result of `storage.Subscribe()`. -/
  storageSubscribe : Option GoError
  /-- The result of `di.EventBus.Subscribe(service.StatusTopic, serviceCleaner.HandleServiceStatus)`. -/
  cleanerSubscribe : Option GoError

/-- The method `bootstrapServiceComponents`; returns the updated container and the error. -/
def bootstrapServiceComponents (w : World) (_nodeOptions : NodeOptions) (di : Dependencies) :
    Run (Dependencies × Option GoError) := do
  step .natNewService
  let di := { di with wiring := { di.wiring with NATService := w.natService } }
  step .natEnable
  if let some err := w.natServiceEnable then
    step (.logWarn err "Failed to enable NAT forwarding")
  step .serviceNewRegistry
  let di := { di with ServiceRegistry := some service_NewRegistry }
  step .sessionNewEventBasedStorage
  let di := { di with wiring := { di.wiring with ServiceSessionStorage := w.sessionStorage } }
  step .storageSubscribe
  let err := w.storageSubscribe
  if err ≠ none then
    return (di, errors_Wrap err "could not bootstrap service components")
  step .serviceNewManager
  let manager : ServicesManager :=
    { newDialogWaiter := newDialogWaiter
      DiscoveryFactory := di.DiscoveryFactory
      EventBus := di.wiring.EventBus
      HTTPClient := di.HTTPClient }
  let di := { di with ServicesManager := some manager }
  step .eventBusSubscribeStatusTopic
  if let some _ := w.cleanerSubscribe then
    step (.logError "Failed to subscribe service cleaner")
  return (di, none)

/-- The call `di.ServiceRegistry.Register(serviceType, creator)` on the pointer held by `di`. -/
def registerFactory (di : Dependencies) (serviceType : String) (creator : ServiceFactory) :
    Run Dependencies :=
  match di.ServiceRegistry with
  | none => goPanic .nilDereference
  | some r => do
    step (.registryRegister serviceType)
    return { di with ServiceRegistry := some (r.Register serviceType creator) }

/-- The method `bootstrapServiceWireguard`. -/
def bootstrapServiceWireguard (pkg : Packages) (_nodeOptions : NodeOptions) (di : Dependencies) :
    Run Dependencies :=
  registerFactory di wireguard_ServiceType (wireguardFactory pkg)

/-- The method `bootstrapServiceOpenvpn`. -/
def bootstrapServiceOpenvpn (pkg : Packages) (nodeOptions : NodeOptions) (di : Dependencies) :
    Run Dependencies :=
  registerFactory di service_openvpn_ServiceType (openvpnFactory pkg nodeOptions)

/-- The method `bootstrapServiceNoop`. -/
def bootstrapServiceNoop (pkg : Packages) (_nodeOptions : NodeOptions) (di : Dependencies) :
    Run Dependencies :=
  registerFactory di service_noop_ServiceType (noopFactory pkg)

/-- The method `bootstrapServices`; returns the updated container and the error. -/
def bootstrapServices (pkg : Packages) (w : World) (nodeOptions : NodeOptions)
    (di : Dependencies) : Run (Dependencies × Option GoError) := do
  let (di, err) ← bootstrapServiceComponents w nodeOptions di
  if err ≠ none then
    return (di, errors_Wrap err "service bootstrap failed")
  let di ← bootstrapServiceOpenvpn pkg nodeOptions di
  let di ← bootstrapServiceNoop pkg nodeOptions di
  let di ← bootstrapServiceWireguard pkg nodeOptions di
  return (di, none)

/-- The factory registered for a protocol identifier in the container, if any. -/
def Dependencies.registered (di : Dependencies) (serviceType : String) : Option ServiceFactory :=
  match di.ServiceRegistry with
  | none => none
  | some r => r.Lookup serviceType

/-- The port pool handed to the manager that a factory run returned, if it returned one. -/
def poolHanded : Outcome FactoryResult → Option PortPool
  | .returned (some (.wireguardManager _ _ _ _ pool), _, _) => some pool
  | .returned (some (.openvpnManager _ _ _ _ _ _ _ _ pool _), _, _) => some pool
  | _ => none

/-- The port-mapping hook builder handed to the manager that a factory run returned, if any. -/
def mapPortHanded : Outcome FactoryResult → Option (Int → PortMappingFunc)
  | .returned (some (.wireguardManager _ _ mapPort _ _), _, _) => some mapPort
  | .returned (some (.openvpnManager _ _ _ _ _ _ mapPort _ _ _), _, _) => some mapPort
  | _ => none

/-- Whether a step builds a port pool, a port-mapping closure or a service manager. -/
def Step.constructs : Step → Bool
  | .poolBuilt _ => true
  | .mapPortClosure => true
  | .wireguardNewManager => true
  | .openvpnNewManager => true
  | .noopNewManager => true
  | _ => false

/-! ## Sample inputs -/

/-- A sample location. -/
def sampleLocation : Location :=
  ⟨"1.2.3.4", "EU", "LT", "Vilnius", 8764, "Telia", "residential"⟩

/-- Sample package functions: a range counts as specified when both its bounds are non-zero. -/
def samplePackages : Packages :=
  { IsSpecified := fun r =>
      match r with
      | some r => r.Start ≠ 0 && r.End ≠ 0
      | none => false
    wireguardGetProposal := fun l => { service_noop_GetProposal l with ServiceType := "wireguard" }
    NewServiceProposalWithLocation := fun l proto =>
      { ServiceType := "openvpn", Location := l, Protocol := proto, ProviderID := "" }
    noopGetProposal := service_noop_GetProposal }

/-- A sample container state with the given resolver results. -/
def sampleWiring (location : Location × Option GoError) (outIP : String × Option GoError) :
    Wiring :=
  { DetectLocation := location, GetOutboundIPAsString := outIP, IPResolver := ⟨"ip"⟩,
    NATService := ⟨"nat"⟩, NATPinger := ⟨"pinger"⟩, NATTracker := ⟨"tracker"⟩,
    EventBus := ⟨"bus"⟩, ServiceSessionStorage := ⟨"storage"⟩ }

/-- A sample container before bootstrap. -/
def sampleDependencies : Dependencies :=
  { wiring := sampleWiring (sampleLocation, none) ("10.0.0.1", none)
    dialog := ⟨⟨"broker"⟩, fun _ => ⟨"signer"⟩⟩
    DiscoveryFactory := ⟨"discovery"⟩
    HTTPClient := ⟨"http"⟩
    ServiceRegistry := none
    ServicesManager := none }

/-- A sample world in which the calls made during bootstrap have the given results. -/
def sampleWorld (enable subscribe cleaner : Option GoError) : World :=
  { natService := ⟨"nat"⟩, natServiceEnable := enable, sessionStorage := ⟨"storage"⟩,
    storageSubscribe := subscribe, cleanerSubscribe := cleaner }

/-! ## Lemmas on the validator and the channel key -/

theorem validator_loop_eq_none_iff (peerID : Identity) (ids : List Identity) :
    allowedIdentityValidator.loop peerID ids = none ↔
      ∃ id ∈ ids, peerID.Address = id.Address := by
  induction ids with
  | nil => simp [allowedIdentityValidator.loop]
  | cons id rest ih =>
    by_cases h : peerID.Address = id.Address
    · simp [allowedIdentityValidator.loop, h]
    · simp [allowedIdentityValidator.loop, h, ih]

theorem validator_loop_cases (peerID : Identity) (ids : List Identity) :
    allowedIdentityValidator.loop peerID ids = none ∨
      allowedIdentityValidator.loop peerID ids = some (errors_New "identity is not allowed") := by
  induction ids with
  | nil => simp [allowedIdentityValidator.loop]
  | cons id rest ih =>
    by_cases h : peerID.Address = id.Address
    · simp [allowedIdentityValidator.loop, h]
    · simpa [allowedIdentityValidator.loop, h] using ih

theorem split_at_first_sep (c : Char) :
    ∀ (l1 l2 r1 r2 : List Char), c ∉ l1 → c ∉ l2 →
      l1 ++ c :: r1 = l2 ++ c :: r2 → l1 = l2 ∧ r1 = r2
  | [], [], r1, r2, _, _, h => by simpa using h
  | [], y :: l2, r1, r2, _, h2, h => by
      simp only [List.nil_append, List.cons_append, List.cons.injEq] at h
      exact absurd (by simp [h.1]) h2
  | x :: l1, [], r1, r2, h1, _, h => by
      simp only [List.nil_append, List.cons_append, List.cons.injEq] at h
      exact absurd (by simp [h.1]) h1
  | x :: l1, y :: l2, r1, r2, h1, h2, h => by
      simp only [List.cons_append, List.cons.injEq] at h
      have ih := split_at_first_sep c l1 l2 r1 r2
        (fun hm => h1 (List.mem_cons_of_mem _ hm))
        (fun hm => h2 (List.mem_cons_of_mem _ hm)) h.2
      exact ⟨by rw [h.1, ih.1], ih.2⟩

/-! ## C1, C2, C10 -/

/-- C1: for a non-empty allow-list, the validator built by newDialogWaiter returns no error
exactly when the peer's address equals the address of some entry, and otherwise returns the
error "identity is not allowed"; for the one-entry list of A it fails for every B whose address
differs from A's. -/
theorem allowedIdentityValidator_nonempty (di : DialogWiring) (providerID : Identity)
    (serviceType : String) (allowedIDs : List Identity) (peerID : Identity)
    (hne : allowedIDs ≠ []) :
    ((newDialogWaiter di providerID serviceType allowedIDs).1.validator peerID = none ↔
        ∃ id ∈ allowedIDs, peerID.Address = id.Address) ∧
    ((¬ ∃ id ∈ allowedIDs, peerID.Address = id.Address) →
        (newDialogWaiter di providerID serviceType allowedIDs).1.validator peerID =
          some (errors_New "identity is not allowed")) ∧
    (∀ A B : Identity, B.Address ≠ A.Address →
        (newDialogWaiter di providerID serviceType [A]).1.validator B =
          some (errors_New "identity is not allowed") ∧
        (errors_New "identity is not allowed").Error = "identity is not allowed") := by
  have hlen : allowedIDs.length ≠ 0 := by
    intro h
    exact hne (List.length_eq_zero.mp h)
  refine ⟨?_, ?_, ?_⟩
  · simp only [newDialogWaiter, allowedIdentityValidator, hlen, if_false]
    exact validator_loop_eq_none_iff peerID allowedIDs
  · intro hno
    simp only [newDialogWaiter, allowedIdentityValidator, hlen, if_false]
    rcases validator_loop_cases peerID allowedIDs with h | h
    · exact absurd ((validator_loop_eq_none_iff peerID allowedIDs).mp h) hno
    · exact h
  · intro A B hAB
    refine ⟨?_, rfl⟩
    simp [newDialogWaiter, allowedIdentityValidator, allowedIdentityValidator.loop, hAB]

theorem allowedIdentityValidator_nonempty_witness :
    ([Identity.mk "0xA1", Identity.mk "0xB2"] ≠ []) ∧
    (((newDialogWaiter sampleDependencies.dialog ⟨"0xP"⟩ "noop"
          [Identity.mk "0xA1", Identity.mk "0xB2"]).1.validator ⟨"0xB2"⟩ = none ↔
        ∃ id ∈ [Identity.mk "0xA1", Identity.mk "0xB2"],
          (Identity.mk "0xB2").Address = id.Address)) :=
  ⟨by decide,
   (allowedIdentityValidator_nonempty sampleDependencies.dialog ⟨"0xP"⟩ "noop"
      [Identity.mk "0xA1", Identity.mk "0xB2"] ⟨"0xB2"⟩ (by decide)).1⟩

/-- C2: for an empty allow-list (nil or of length zero) the validator built by newDialogWaiter
returns no error for every peer identity. -/
theorem allowedIdentityValidator_empty (di : DialogWiring) (providerID : Identity)
    (serviceType : String) (peerID : Identity) :
    (newDialogWaiter di providerID serviceType []).1.validator peerID = none := by
  simp [newDialogWaiter, allowedIdentityValidator]

/-- C10: the dialog channel key built by newDialogWaiter is the provider address, a dot and the
service type; on pairs whose provider address has no dot, equal keys force equal addresses and
equal service types; without that restriction the key is not injective, as ("a.b","c") and
("a","b.c") show. -/
theorem dialogChannelKey_injective (di : DialogWiring) (p1 p2 : Identity) (s1 s2 : String)
    (ids1 ids2 : List Identity)
    (h1 : '.' ∉ p1.Address.toList) (h2 : '.' ∉ p2.Address.toList) :
    (newDialogWaiter di p1 s1 ids1).1.topic = p1.Address ++ "." ++ s1 ∧
    ((newDialogWaiter di p1 s1 ids1).1.topic = (newDialogWaiter di p2 s2 ids2).1.topic →
        p1.Address = p2.Address ∧ s1 = s2) ∧
    ((newDialogWaiter di ⟨"a.b"⟩ "c" ids1).1.topic = (newDialogWaiter di ⟨"a"⟩ "b.c" ids2).1.topic ∧
        (Identity.mk "a.b").Address ≠ (Identity.mk "a").Address) := by
  refine ⟨rfl, ?_, ?_, by decide⟩
  · intro h
    simp only [newDialogWaiter, dialogChannelKey] at h
    have hd := congrArg String.toList h
    simp only [String.toList, String.data_append, List.append_assoc] at hd
    simp only [List.singleton_append] at hd
    obtain ⟨ha, hs⟩ := split_at_first_sep '.' _ _ _ _ h1 h2 hd
    exact ⟨String.ext ha, String.ext hs⟩
  · simp only [newDialogWaiter, dialogChannelKey]
    decide

theorem dialogChannelKey_injective_witness :
    ('.' ∉ (Identity.mk "0xP1").Address.toList) ∧ ('.' ∉ (Identity.mk "0xP2").Address.toList) ∧
    ((newDialogWaiter sampleDependencies.dialog ⟨"0xP1"⟩ "noop" []).1.topic =
      "0xP1" ++ "." ++ "noop") :=
  ⟨by decide, by decide,
   (dialogChannelKey_injective sampleDependencies.dialog ⟨"0xP1"⟩ ⟨"0xP2"⟩ "noop" "wireguard"
      [] [] (by decide) (by decide)).1⟩

/-! ## C9, C3, C4: failure paths of the factories -/

/-- C9: the openvpn factory validates nodeOptions.Openvpn.Check() first: for every options
value, if Check() returns an error the factory returns a nil Service, the zero-value proposal
and exactly that error, and the only step performed is the check itself, so neither resolver is
invoked and serviceOptions is not narrowed. -/
theorem openvpnFactory_check_failure (pkg : Packages) (nodeOptions : NodeOptions) (di : Wiring)
    (serviceOptions : ServiceOptions) (e : GoError) (hcheck : nodeOptions.OpenvpnCheck = some e) :
    (openvpnFactory pkg nodeOptions di serviceOptions).exec =
      (.returned (none, ServiceProposal.zero, some e), [.OpenvpnCheck]) := by
  simp [openvpnFactory, Run.exec, bind, Run.bind, step, pure, Run.pure, hcheck]

theorem openvpnFactory_check_failure_witness :
    (NodeOptions.mk (some (.new "openvpn binary not found"))).OpenvpnCheck =
        some (.new "openvpn binary not found") ∧
    (openvpnFactory
        samplePackages
        ⟨some (.new "openvpn binary not found")⟩
        (sampleWiring (sampleLocation, none) ("10.0.0.1", none))
        (.other "string")).exec =
      (.returned (none, ServiceProposal.zero, some (.new "openvpn binary not found")),
        [.OpenvpnCheck]) :=
  ⟨rfl, openvpnFactory_check_failure _ _ _ _ _ rfl⟩

/-- C3: for the wireguard, openvpn and noop factories and every options value, a failure of
DetectLocation, or for wireguard and openvpn a failure of GetOutboundIPAsString after a
successful DetectLocation, makes the factory return a nil Service, the zero-value proposal and
exactly the resolver's error, and no step of the run builds a port pool, a port-mapping closure
or a service manager; for openvpn this is under the hypothesis that Check() succeeded. -/
theorem factories_resolver_failure (pkg : Packages) (nodeOptions : NodeOptions) (di : Wiring)
    (serviceOptions : ServiceOptions) (e : GoError) :
    (∀ loc, di.DetectLocation = (loc, some e) →
      (wireguardFactory pkg di serviceOptions).exec =
          (.returned (none, ServiceProposal.zero, some e), [.DetectLocation]) ∧
      (nodeOptions.OpenvpnCheck = none →
        (openvpnFactory pkg nodeOptions di serviceOptions).exec =
          (.returned (none, ServiceProposal.zero, some e), [.OpenvpnCheck, .DetectLocation])) ∧
      (noopFactory pkg di serviceOptions).exec =
          (.returned (none, ServiceProposal.zero, some e), [.DetectLocation])) ∧
    (∀ loc ip, di.DetectLocation = (loc, none) → di.GetOutboundIPAsString = (ip, some e) →
      (wireguardFactory pkg di serviceOptions).exec =
          (.returned (none, ServiceProposal.zero, some e),
            [.DetectLocation, .GetOutboundIPAsString]) ∧
      (nodeOptions.OpenvpnCheck = none →
        (openvpnFactory pkg nodeOptions di serviceOptions).exec =
          (.returned (none, ServiceProposal.zero, some e),
            [.OpenvpnCheck, .DetectLocation, .GetOutboundIPAsString]))) ∧
    (∀ s ∈ [Step.OpenvpnCheck, Step.DetectLocation, Step.GetOutboundIPAsString],
      s.constructs = false) := by
  refine ⟨?_, ?_, by decide⟩
  · intro loc hloc
    refine ⟨?_, ?_, ?_⟩
    · simp [wireguardFactory, Run.exec, bind, Run.bind, step, pure, Run.pure, hloc]
    · intro hcheck
      simp [openvpnFactory, Run.exec, bind, Run.bind, step, pure, Run.pure, hloc, hcheck]
    · simp [noopFactory, Run.exec, bind, Run.bind, step, pure, Run.pure, hloc]
  · intro loc ip hloc hip
    refine ⟨?_, ?_⟩
    · simp [wireguardFactory, Run.exec, bind, Run.bind, step, pure, Run.pure, hloc, hip]
    · intro hcheck
      simp [openvpnFactory, Run.exec, bind, Run.bind, step, pure, Run.pure, hloc, hip, hcheck]

theorem factories_resolver_failure_witness :
    (wireguardFactory
        samplePackages
        (sampleWiring (sampleLocation, none) ("", some (.new "no outbound ip")))
        (.openvpn ⟨"udp", 1194⟩)).exec =
      (.returned (none, ServiceProposal.zero, some (.new "no outbound ip")),
        [.DetectLocation, .GetOutboundIPAsString]) :=
  ((factories_resolver_failure _ ⟨none⟩ _ _ _).2.1 _ _ rfl rfl).1

/-- C4 (as stated, refuted): with both resolvers succeeding, the wireguard factory called with
openvpn options does not return an error: the run ends in a panic of the type assertion. -/
theorem wireguardFactory_wrong_options_panics :
    (wireguardFactory
        samplePackages
        (sampleWiring (sampleLocation, none) ("10.0.0.1", none))
        (.openvpn ⟨"udp", 1194⟩)).exec.1 =
      .panicked (.interfaceConversion (some "openvpn_service.Options")
        "wireguard_service.Options") ∧
    ¬ ∃ r : FactoryResult,
      (wireguardFactory
        samplePackages
        (sampleWiring (sampleLocation, none) ("10.0.0.1", none))
        (.openvpn ⟨"udp", 1194⟩)).exec.1 = .returned r := by
  constructor
  · rfl
  · rintro ⟨r, hr⟩
    have h : (wireguardFactory
        samplePackages
        (sampleWiring (sampleLocation, none) ("10.0.0.1", none))
        (.openvpn ⟨"udp", 1194⟩)).exec.1 =
      .panicked (.interfaceConversion (some "openvpn_service.Options")
        "wireguard_service.Options") := rfl
    rw [h] at hr
    exact Outcome.noConfusion hr

/-- C4 (amended): for the wireguard and the openvpn factory, when both resolvers succeed (and,
for openvpn, Check() succeeded) and the options value is not of that protocol's options type,
the single-value type assertion panics: the run ends, the same way for the same options, in the
interface-conversion panic naming the dynamic type of the value, no result is returned, and the
steps performed are the resolver calls only. -/
theorem factories_wrong_options_panic (pkg : Packages) (nodeOptions : NodeOptions) (di : Wiring)
    (serviceOptions : ServiceOptions) (loc : Location) (ip : String)
    (hloc : di.DetectLocation = (loc, none)) (hip : di.GetOutboundIPAsString = (ip, none)) :
    ((∀ o, serviceOptions ≠ .wireguard o) →
      (wireguardFactory pkg di serviceOptions).exec =
        (.panicked (.interfaceConversion serviceOptions.dynamicType "wireguard_service.Options"),
          [.DetectLocation, .GetOutboundIPAsString])) ∧
    ((∀ o, serviceOptions ≠ .openvpn o) → nodeOptions.OpenvpnCheck = none →
      (openvpnFactory pkg nodeOptions di serviceOptions).exec =
        (.panicked (.interfaceConversion serviceOptions.dynamicType "openvpn_service.Options"),
          [.OpenvpnCheck, .DetectLocation, .GetOutboundIPAsString])) := by
  constructor
  · intro hshape
    cases serviceOptions with
    | wireguard o => exact absurd rfl (hshape o)
    | openvpn o =>
      simp [wireguardFactory, Run.exec, bind, Run.bind, step, pure, Run.pure, goPanic, hloc, hip]
    | other n =>
      simp [wireguardFactory, Run.exec, bind, Run.bind, step, pure, Run.pure, goPanic, hloc, hip]
    | nil =>
      simp [wireguardFactory, Run.exec, bind, Run.bind, step, pure, Run.pure, goPanic, hloc, hip]
  · intro hshape hcheck
    cases serviceOptions with
    | openvpn o => exact absurd rfl (hshape o)
    | wireguard o =>
      simp [openvpnFactory, Run.exec, bind, Run.bind, step, pure, Run.pure, goPanic, hloc, hip,
        hcheck]
    | other n =>
      simp [openvpnFactory, Run.exec, bind, Run.bind, step, pure, Run.pure, goPanic, hloc, hip,
        hcheck]
    | nil =>
      simp [openvpnFactory, Run.exec, bind, Run.bind, step, pure, Run.pure, goPanic, hloc, hip,
        hcheck]

theorem factories_wrong_options_panic_witness :
    (openvpnFactory
        samplePackages
        ⟨none⟩
        (sampleWiring (sampleLocation, none) ("10.0.0.1", none))
        (.wireguard ⟨some ⟨51000, 51005⟩⟩)).exec =
      (.panicked (.interfaceConversion (some "wireguard_service.Options")
          "openvpn_service.Options"),
        [.OpenvpnCheck, .DetectLocation, .GetOutboundIPAsString]) :=
  (factories_wrong_options_panic _ ⟨none⟩ _ _ _ _ rfl rfl).2 (fun _ h => by cases h) rfl

/-! ## C5, C6, C7: success paths of the factories -/

/-- C5: for the wireguard factory with both resolvers succeeding and options of type
wireguard_service.Options: if Ports.IsSpecified() holds for the range the options point to,
the pool handed to the manager is NewFixedRangePool over exactly that range; if it does not
hold the pool is the dynamic NewPool(); and in both cases, for every port p, the mapPort hook
handed to the manager is the port-mapping function for the location IP, the outbound IP,
protocol "UDP", port p and the label "Myst node wireguard(tm) port mapping". -/
theorem wireguardFactory_pool_and_mapPort (pkg : Packages) (di : Wiring) (o : WireguardOptions)
    (loc : Location) (ip : String)
    (hloc : di.DetectLocation = (loc, none)) (hip : di.GetOutboundIPAsString = (ip, none)) :
    (∀ r, o.Ports = some r → pkg.IsSpecified (some r) = true →
      (wireguardFactory pkg di (.wireguard o)).exec =
        (.returned
          (some (.wireguardManager di.IPResolver di.NATService
            (fun p => mapping_GetPortMappingFunc loc.IP ip "UDP" p
              "Myst node wireguard(tm) port mapping" di.EventBus)
            o (.NewFixedRangePool r)),
           pkg.wireguardGetProposal loc, none),
         [.DetectLocation, .GetOutboundIPAsString, .mapPortClosure,
          .logInfo "Fixed service port range (%s) configured, using custom port pool" (some r),
          .poolBuilt (.NewFixedRangePool r), .wireguardNewManager, .wireguardGetProposal])) ∧
    (pkg.IsSpecified o.Ports = false →
      (wireguardFactory pkg di (.wireguard o)).exec =
        (.returned
          (some (.wireguardManager di.IPResolver di.NATService
            (fun p => mapping_GetPortMappingFunc loc.IP ip "UDP" p
              "Myst node wireguard(tm) port mapping" di.EventBus)
            o .NewPool),
           pkg.wireguardGetProposal loc, none),
         [.DetectLocation, .GetOutboundIPAsString, .mapPortClosure,
          .poolBuilt .NewPool, .wireguardNewManager, .wireguardGetProposal])) ∧
    (∀ mapPort, mapPortHanded (wireguardFactory pkg di (.wireguard o)).exec.1 = some mapPort →
      ∀ p : Int, mapPort p =
        { pubIP := loc.IP, outIP := ip, protocol := "UDP", port := p,
          name := "Myst node wireguard(tm) port mapping", publisher := di.EventBus }) := by
  refine ⟨?_, ?_, ?_⟩
  · intro r hr hspec
    simp [wireguardFactory, Run.exec, bind, Run.bind, step, pure, Run.pure, hloc, hip, hr, hspec]
  · intro hspec
    simp [wireguardFactory, Run.exec, bind, Run.bind, step, pure, Run.pure, hloc, hip, hspec]
  · intro mapPort hm p
    cases hspec : pkg.IsSpecified o.Ports with
    | false =>
      simp [wireguardFactory, Run.exec, bind, Run.bind, step, pure, Run.pure, hloc, hip, hspec,
        mapPortHanded] at hm
      rw [← hm]
      rfl
    | true =>
      cases hr : o.Ports with
      | none =>
        rw [hr] at hspec
        simp [wireguardFactory, Run.exec, bind, Run.bind, step, pure, Run.pure, goPanic, hloc,
          hip, hspec, hr, mapPortHanded] at hm
      | some r =>
        rw [hr] at hspec
        simp [wireguardFactory, Run.exec, bind, Run.bind, step, pure, Run.pure, hloc, hip, hspec,
          hr, mapPortHanded] at hm
        rw [← hm]
        rfl

theorem wireguardFactory_pool_and_mapPort_witness :
    poolHanded (wireguardFactory samplePackages
        (sampleWiring (sampleLocation, none) ("10.0.0.1", none))
        (.wireguard ⟨some ⟨51000, 51005⟩⟩)).exec.1 =
      some (.NewFixedRangePool ⟨51000, 51005⟩) ∧
    (mapPortHanded (wireguardFactory samplePackages
        (sampleWiring (sampleLocation, none) ("10.0.0.1", none))
        (.wireguard ⟨some ⟨51000, 51005⟩⟩)).exec.1).map (fun f => f 51000) =
      some ⟨"1.2.3.4", "10.0.0.1", "UDP", 51000, "Myst node wireguard(tm) port mapping",
        ⟨"bus"⟩⟩ := by
  have h := (wireguardFactory_pool_and_mapPort samplePackages
    (sampleWiring (sampleLocation, none) ("10.0.0.1", none)) ⟨some ⟨51000, 51005⟩⟩
    sampleLocation "10.0.0.1" rfl rfl).1 ⟨51000, 51005⟩ rfl (by decide)
  rw [h]
  exact ⟨rfl, rfl⟩

/-- C6: for the openvpn factory with Check() and both resolvers succeeding and options of type
openvpn_service.Options, the pool handed to the manager is NewPoolFixed over exactly
options.Port when options.Port is non-zero and the dynamic NewPool() exactly when options.Port
is 0; any other run of the factory that succeeds on the same options, whatever its packages,
node options and container state, hands over the same pool. -/
theorem openvpnFactory_pool (pkg : Packages) (nodeOptions : NodeOptions) (di : Wiring)
    (o : OpenvpnOptions) (loc : Location) (ip : String)
    (hcheck : nodeOptions.OpenvpnCheck = none)
    (hloc : di.DetectLocation = (loc, none)) (hip : di.GetOutboundIPAsString = (ip, none)) :
    (openvpnFactory pkg nodeOptions di (.openvpn o)).exec =
      (.returned
        (some (.openvpnManager nodeOptions o
          { OutIP := ip, PubIP := loc.IP, Country := loc.Country }
          di.ServiceSessionStorage di.NATService di.NATPinger
          (fun p => mapping_GetPortMappingFunc loc.IP ip o.Protocol p
            "Myst node OpenVPN port mapping" di.EventBus)
          di.NATTracker
          (if o.Port ≠ 0 then .NewPoolFixed o.Port else .NewPool)
          di.EventBus),
         pkg.NewServiceProposalWithLocation
          { Continent := loc.Continent, Country := loc.Country, City := loc.City,
            ASN := loc.ASN, ISP := loc.ISP, NodeType := loc.NodeType } o.Protocol,
         none),
       [.OpenvpnCheck, .DetectLocation, .GetOutboundIPAsString, .mapPortClosure,
        .openvpnNewServiceProposalWithLocation,
        .poolBuilt (if o.Port ≠ 0 then .NewPoolFixed o.Port else .NewPool),
        .openvpnNewManager]) ∧
    (o.Port ≠ 0 →
      poolHanded (openvpnFactory pkg nodeOptions di (.openvpn o)).exec.1 =
        some (.NewPoolFixed o.Port)) ∧
    (poolHanded (openvpnFactory pkg nodeOptions di (.openvpn o)).exec.1 = some .NewPool ↔
      o.Port = 0) ∧
    (∀ (pkg2 : Packages) (nodeOptions2 : NodeOptions) (di2 : Wiring) (loc2 : Location)
        (ip2 : String),
      nodeOptions2.OpenvpnCheck = none → di2.DetectLocation = (loc2, none) →
      di2.GetOutboundIPAsString = (ip2, none) →
      poolHanded (openvpnFactory pkg2 nodeOptions2 di2 (.openvpn o)).exec.1 =
        poolHanded (openvpnFactory pkg nodeOptions di (.openvpn o)).exec.1) := by
  have key : ∀ (pkg : Packages) (nodeOptions : NodeOptions) (di : Wiring) (loc : Location)
      (ip : String), nodeOptions.OpenvpnCheck = none → di.DetectLocation = (loc, none) →
      di.GetOutboundIPAsString = (ip, none) →
      (openvpnFactory pkg nodeOptions di (.openvpn o)).exec =
      (.returned
        (some (.openvpnManager nodeOptions o
          { OutIP := ip, PubIP := loc.IP, Country := loc.Country }
          di.ServiceSessionStorage di.NATService di.NATPinger
          (fun p => mapping_GetPortMappingFunc loc.IP ip o.Protocol p
            "Myst node OpenVPN port mapping" di.EventBus)
          di.NATTracker
          (if o.Port ≠ 0 then .NewPoolFixed o.Port else .NewPool)
          di.EventBus),
         pkg.NewServiceProposalWithLocation
          { Continent := loc.Continent, Country := loc.Country, City := loc.City,
            ASN := loc.ASN, ISP := loc.ISP, NodeType := loc.NodeType } o.Protocol,
         none),
       [.OpenvpnCheck, .DetectLocation, .GetOutboundIPAsString, .mapPortClosure,
        .openvpnNewServiceProposalWithLocation,
        .poolBuilt (if o.Port ≠ 0 then .NewPoolFixed o.Port else .NewPool),
        .openvpnNewManager]) := by
    intro pkg nodeOptions di loc ip hcheck hloc hip
    by_cases hp : o.Port = 0
    · simp [openvpnFactory, Run.exec, bind, Run.bind, step, pure, Run.pure, hloc, hip, hcheck, hp]
    · simp [openvpnFactory, Run.exec, bind, Run.bind, step, pure, Run.pure, hloc, hip, hcheck, hp]
  have hpool : ∀ (pkg : Packages) (nodeOptions : NodeOptions) (di : Wiring) (loc : Location)
      (ip : String), nodeOptions.OpenvpnCheck = none → di.DetectLocation = (loc, none) →
      di.GetOutboundIPAsString = (ip, none) →
      poolHanded (openvpnFactory pkg nodeOptions di (.openvpn o)).exec.1 =
        some (if o.Port ≠ 0 then .NewPoolFixed o.Port else .NewPool) := by
    intro pkg nodeOptions di loc ip hcheck hloc hip
    rw [key pkg nodeOptions di loc ip hcheck hloc hip]
    rfl
  refine ⟨key pkg nodeOptions di loc ip hcheck hloc hip, ?_, ?_, ?_⟩
  · intro hp
    rw [hpool pkg nodeOptions di loc ip hcheck hloc hip]
    simp [hp]
  · rw [hpool pkg nodeOptions di loc ip hcheck hloc hip]
    by_cases hp : o.Port = 0
    · simp [hp]
    · simp [hp]
  · intro pkg2 nodeOptions2 di2 loc2 ip2 hcheck2 hloc2 hip2
    rw [hpool pkg nodeOptions di loc ip hcheck hloc hip,
      hpool pkg2 nodeOptions2 di2 loc2 ip2 hcheck2 hloc2 hip2]

theorem openvpnFactory_pool_witness :
    poolHanded (openvpnFactory samplePackages ⟨none⟩
        (sampleWiring (sampleLocation, none) ("10.0.0.1", none))
        (.openvpn ⟨"udp", 1194⟩)).exec.1 = some (.NewPoolFixed 1194) :=
  (openvpnFactory_pool samplePackages ⟨none⟩
    (sampleWiring (sampleLocation, none) ("10.0.0.1", none)) ⟨"udp", 1194⟩
    sampleLocation "10.0.0.1" rfl rfl rfl).2.1 (by decide)

/-- C7: for the noop factory and every options value, when DetectLocation returns location L
the factory returns no error, the noop manager and the proposal GetProposal(L); the steps of the
run are the location call, NewManager and GetProposal, so the IP resolver is not consulted and
no port pool and no port-mapping closure is built; with GetProposal as the spec describes it,
the location fields of the proposal are those of L. -/
theorem noopFactory_success (pkg : Packages) (di : Wiring) (serviceOptions : ServiceOptions)
    (L : Location) (hloc : di.DetectLocation = (L, none)) :
    (noopFactory pkg di serviceOptions).exec =
      (.returned (some .noopManager, pkg.noopGetProposal L, none),
        [.DetectLocation, .noopNewManager, .noopGetProposal]) ∧
    Step.GetOutboundIPAsString ∉ (noopFactory pkg di serviceOptions).exec.2 ∧
    Step.mapPortClosure ∉ (noopFactory pkg di serviceOptions).exec.2 ∧
    (∀ pool, Step.poolBuilt pool ∉ (noopFactory pkg di serviceOptions).exec.2) ∧
    (pkg.noopGetProposal = service_noop_GetProposal →
      (pkg.noopGetProposal L).Location =
        { Continent := L.Continent, Country := L.Country, City := L.City,
          ASN := L.ASN, ISP := L.ISP, NodeType := L.NodeType }) := by
  have key : (noopFactory pkg di serviceOptions).exec =
      (.returned (some .noopManager, pkg.noopGetProposal L, none),
        [.DetectLocation, .noopNewManager, .noopGetProposal]) := by
    simp [noopFactory, Run.exec, bind, Run.bind, step, pure, Run.pure, hloc]
  refine ⟨key, ?_, ?_, ?_, ?_⟩
  · rw [key]
    simp
  · rw [key]
    simp
  · intro pool
    rw [key]
    simp
  · intro h
    rw [h]
    rfl

theorem noopFactory_success_witness :
    (noopFactory samplePackages
        (sampleWiring (sampleLocation, none) ("", some (.new "no outbound ip")))
        (.openvpn ⟨"udp", 1194⟩)).exec =
      (.returned (some .noopManager, service_noop_GetProposal sampleLocation, none),
        [.DetectLocation, .noopNewManager, .noopGetProposal]) :=
  (noopFactory_success samplePackages
    (sampleWiring (sampleLocation, none) ("", some (.new "no outbound ip")))
    (.openvpn ⟨"udp", 1194⟩) sampleLocation rfl).1

/-! ## C8: the bootstrap sequence -/

/-- C8: bootstrapServices always returns, and it returns an error if and only if
storage.Subscribe fails; then the error is that failure wrapped twice and none of the openvpn,
noop and wireguard factories is registered; when storage.Subscribe succeeds the result is nil
and the three factories are registered in the ServiceRegistry, a failure of NATService.Enable
or of subscribing the service cleaner leaving only a log line. -/
theorem bootstrapServices_error_iff (pkg : Packages) (w : World) (nodeOptions : NodeOptions)
    (di : Dependencies) :
    ∃ di2 err steps,
      (bootstrapServices pkg w nodeOptions di).exec = (.returned (di2, err), steps) ∧
      (err ≠ none ↔ w.storageSubscribe ≠ none) ∧
      (∀ e, w.storageSubscribe = some e →
        err = some (.wrap (.wrap e "could not bootstrap service components")
          "service bootstrap failed") ∧
        di2.registered service_openvpn_ServiceType = none ∧
        di2.registered service_noop_ServiceType = none ∧
        di2.registered wireguard_ServiceType = none ∧
        ∀ t, Step.registryRegister t ∉ steps) ∧
      (w.storageSubscribe = none →
        err = none ∧
        di2.registered service_openvpn_ServiceType = some (openvpnFactory pkg nodeOptions) ∧
        di2.registered service_noop_ServiceType = some (noopFactory pkg) ∧
        di2.registered wireguard_ServiceType = some (wireguardFactory pkg) ∧
        steps.filter (fun s => s matches .registryRegister _) =
          [.registryRegister service_openvpn_ServiceType,
           .registryRegister service_noop_ServiceType,
           .registryRegister wireguard_ServiceType] ∧
        (∀ e, w.natServiceEnable = some e →
          Step.logWarn e "Failed to enable NAT forwarding" ∈ steps) ∧
        (w.cleanerSubscribe ≠ none →
          Step.logError "Failed to subscribe service cleaner" ∈ steps)) := by
  generalize hrun : (bootstrapServices pkg w nodeOptions di).exec = r
  cases hs : w.storageSubscribe with
  | some e =>
    cases hn : w.natServiceEnable with
    | none =>
      simp [bootstrapServices, bootstrapServiceComponents, Run.exec, bind, Run.bind, step, pure,
        Run.pure, hs, hn, errors_Wrap] at hrun
      subst hrun
      refine ⟨_, _, _, rfl, by simp, ?_, by simp⟩
      intro e2 he2
      cases he2
      simp [Dependencies.registered, service_NewRegistry, Registry.Lookup]
    | some en =>
      simp [bootstrapServices, bootstrapServiceComponents, Run.exec, bind, Run.bind, step, pure,
        Run.pure, hs, hn, errors_Wrap] at hrun
      subst hrun
      refine ⟨_, _, _, rfl, by simp, ?_, by simp⟩
      intro e2 he2
      cases he2
      simp [Dependencies.registered, service_NewRegistry, Registry.Lookup]
  | none =>
    cases hn : w.natServiceEnable with
    | none =>
      cases hc : w.cleanerSubscribe with
      | none =>
        simp [bootstrapServices, bootstrapServiceComponents, bootstrapServiceOpenvpn,
          bootstrapServiceNoop, bootstrapServiceWireguard, registerFactory, Run.exec, bind,
          Run.bind, step, pure, Run.pure, hs, hn, hc, errors_Wrap] at hrun
        subst hrun
        refine ⟨_, _, _, rfl, by simp, by simp, ?_⟩
        intro _
        simp [Dependencies.registered, service_NewRegistry, Registry.Lookup, Registry.Register,
          service_openvpn_ServiceType, service_noop_ServiceType, wireguard_ServiceType]
      | some ec =>
        simp [bootstrapServices, bootstrapServiceComponents, bootstrapServiceOpenvpn,
          bootstrapServiceNoop, bootstrapServiceWireguard, registerFactory, Run.exec, bind,
          Run.bind, step, pure, Run.pure, hs, hn, hc, errors_Wrap] at hrun
        subst hrun
        refine ⟨_, _, _, rfl, by simp, by simp, ?_⟩
        intro _
        simp [Dependencies.registered, service_NewRegistry, Registry.Lookup, Registry.Register,
          service_openvpn_ServiceType, service_noop_ServiceType, wireguard_ServiceType]
    | some en =>
      cases hc : w.cleanerSubscribe with
      | none =>
        simp [bootstrapServices, bootstrapServiceComponents, bootstrapServiceOpenvpn,
          bootstrapServiceNoop, bootstrapServiceWireguard, registerFactory, Run.exec, bind,
          Run.bind, step, pure, Run.pure, hs, hn, hc, errors_Wrap] at hrun
        subst hrun
        refine ⟨_, _, _, rfl, by simp, by simp, ?_⟩
        intro _
        simp [Dependencies.registered, service_NewRegistry, Registry.Lookup, Registry.Register,
          service_openvpn_ServiceType, service_noop_ServiceType, wireguard_ServiceType]
      | some ec =>
        simp [bootstrapServices, bootstrapServiceComponents, bootstrapServiceOpenvpn,
          bootstrapServiceNoop, bootstrapServiceWireguard, registerFactory, Run.exec, bind,
          Run.bind, step, pure, Run.pure, hs, hn, hc, errors_Wrap] at hrun
        subst hrun
        refine ⟨_, _, _, rfl, by simp, by simp, ?_⟩
        intro _
        simp [Dependencies.registered, service_NewRegistry, Registry.Lookup, Registry.Register,
          service_openvpn_ServiceType, service_noop_ServiceType, wireguard_ServiceType]

end DiDesktop
